import Mathlib

/-
  Verification of the tbilisicars-back pricing core.

  Shallow embedding of the rate-resolution and booking price-calculation
  engine of the repository:
    - src/app/models/{rate,one_way_fee,vehicle,vehicle_group,location,booking,user}.py
    - src/app/routes/rates.py      (calculate_price)
    - src/app/routes/bookings.py   (_calculate_rate_for_booking, _calculate_one_way_fee,
                                    _calculate_delivery_fee, _find_or_create_user,
                                    create_booking, update_booking, partial_update_booking)

  Modelling conventions:
    - datetimes are integer seconds; a calendar date is the integer day ordinal
      obtained by flooring seconds over 86400 (Python `datetime.date()` /
      `timedelta.days` floor toward negative infinity, i.e. `Int.fdiv`);
    - SQL `Numeric` money values are rationals (`Rat`);
    - a database table is a list of rows; `query(...).filter(...).first()` is
      `List.find?`; `.order_by(...)` is a sort by the corresponding key;
    - Python truthiness of nullable columns is modelled explicitly
      (`None` and `0` and the empty string are falsy);
    - `ilike` with a plain city name as pattern is case-insensitive equality;
    - the standard-library datetime parsers (`datetime.fromisoformat`,
      `datetime.strptime`) are parameters of the embedding: they are outside
      the repository, only the surrounding control flow is repository code.
-/

namespace CarRental

/-! ## Data model (src/app/models) -/

/-- src/app/models/location.py: `Location` (fields used by the pricing core).
`city` is a non-nullable string column; the empty string is Python-falsy. -/
structure Location where
  id : Nat
  city : String
deriving DecidableEq

/-- src/app/models/one_way_fee.py: `OneWayFee`. -/
structure OneWayFee where
  id : Nat
  from_city : String
  to_city : String
  fee_amount : Rat
  currency : String
  is_active : Bool
deriving DecidableEq

/-- src/app/models/vehicle_group.py: `VehicleGroup` (fields used by pricing). -/
structure VehicleGroup where
  id : Nat
  name : String
  base_price_per_day : Option Rat
deriving DecidableEq

/-- src/app/models/vehicle.py: `Vehicle` (fields used by pricing). -/
structure Vehicle where
  id : Nat
  vehicle_group_id : Option Nat
  location_id : Option Nat
  starting_price : Option Rat
deriving DecidableEq

/-- src/app/models/rate.py: `Rate` (fields consulted by the resolver).
`valid_from`/`valid_until` are calendar dates (day ordinals). -/
structure Rate where
  id : Nat
  name : String
  valid_from : Int
  valid_until : Int
  min_days : Int
  max_days : Option Int
  is_active : Bool
deriving DecidableEq

/-- src/app/models/rate.py: `RateTier`. -/
structure RateTier where
  id : Nat
  rate_id : Nat
  vehicle_group_id : Nat
  from_days : Int
  to_days : Option Int
  price_per_day : Rat
  currency : String
deriving DecidableEq

/-- src/app/models/user.py: `User` (fields used by booking creation). -/
structure UserRow where
  id : Nat
  first_name : String
  last_name : String
  email : String
  phone : Option String
  is_active : Bool
  is_superuser : Bool
deriving DecidableEq

/-- src/app/models/booking.py: `Booking` (fields used by the pricing and
lifecycle code).  Nullable-at-the-Python-level attributes are `Option`s. -/
structure BookingRow where
  id : Nat
  user_id : Option Nat
  vehicle_id : Option Nat
  pickup_location_id : Option Nat
  dropoff_location_id : Option Nat
  pickup_datetime : Option Int
  dropoff_datetime : Option Int
  rate_id : Option Nat
  rate_tier_id : Option Nat
  price_per_day : Option Rat
  one_way_fee : Option Rat
  delivery_fee : Option Rat
  contact_first_name : String
  contact_last_name : String
  contact_email : Option String
  contact_phone : Option String
deriving DecidableEq

/-- The relational store read by the pricing core: one list per table. -/
structure DB where
  vehicles : List Vehicle
  groups : List VehicleGroup
  locations : List Location
  rates : List Rate
  tiers : List RateTier
  fees : List OneWayFee
  users : List UserRow
  bookings : List BookingRow
deriving DecidableEq

/-! ## Python-semantics helpers -/

/-- Truthiness of a nullable integer column: `None` and `0` are falsy. -/
def optNatTruthy : Option Nat → Bool
  | none => false
  | some n => decide (n ≠ 0)

/-- Truthiness of a nullable numeric column: `None` and `0` are falsy. -/
def optRatTruthy : Option Rat → Bool
  | none => false
  | some q => decide (q ≠ 0)

/-- Truthiness of a string column: the empty string is falsy. -/
def strTruthy (s : String) : Bool := decide (s ≠ "")

/-- Python `str.lower()` (character-wise lowering). -/
def pyLower (s : String) : String := String.mk (s.data.map Char.toLower)

/-- Case-insensitive string equality: Python `a.lower() == b.lower()`,
also the meaning of SQL `ilike` on a pattern without wildcards. -/
def ciEq (a b : String) : Bool := pyLower a == pyLower b

/-- Python `s.replace(pat, rep)` for a one-character pattern (the only
shape the repository uses: `'Z'`, `'+'`, `' '`). -/
def replaceChar (pat : Char) (rep : List Char) : List Char → List Char
  | [] => []
  | c :: cs =>
    if c == pat then rep ++ replaceChar pat rep cs
    else c :: replaceChar pat rep cs

/-- Python `s.split(sep)` for a one-character separator. -/
def splitOnChar (sep : Char) : List Char → List (List Char)
  | [] => [[]]
  | c :: cs =>
    if c == sep then [] :: splitOnChar sep cs
    else match splitOnChar sep cs with
      | [] => [[c]]
      | h :: t => (c :: h) :: t

/-- Python regex `\s` character class (space, tab, newline, return,
vertical tab, form feed), also the `str.strip()` whitespace set. -/
def isSpaceChar (c : Char) : Bool :=
  c == ' ' || c == '\t' || c == '\n' || c == '\r' || c == '\x0b' || c == '\x0c'

/-- Python `s.strip()`: whitespace removed from both ends. -/
def pyStrip (s : String) : String :=
  String.mk (((s.data.dropWhile isSpaceChar).reverse.dropWhile isSpaceChar).reverse)

/-! ## Table lookups -/

/-- Model of `db.query(Vehicle).filter(Vehicle.id == vid).first()`. -/
def findVehicle (db : DB) (vid : Nat) : Option Vehicle :=
  db.vehicles.find? (fun v => v.id == vid)

/-- The `vehicle.vehicle_group` relationship: lookup of the group row. -/
def findGroup (db : DB) (gid : Option Nat) : Option VehicleGroup :=
  gid.bind (fun g => db.groups.find? (fun x => x.id == g))

/-- Model of `db.query(Location).filter(Location.id == i).first()` for a nullable id. -/
def findLoc (db : DB) (lid : Option Nat) : Option Location :=
  lid.bind (fun i => db.locations.find? (fun l => l.id == i))

/-- Model of `db.query(OneWayFee).filter(from_city.ilike(src), to_city.ilike(dst),
is_active == True).first()` — shared by all four fee-lookup sites. -/
def feeLookup (fees : List OneWayFee) (src dst : String) : Option OneWayFee :=
  fees.find? (fun f => ciEq f.from_city src && ciEq f.to_city dst && f.is_active)

/-! ## Rental window (rates.py lines 98-102, bookings.py lines 215-219) -/

/-- Python `pickup.date()`: day ordinal of a datetime given in seconds. -/
def dateOf (dt : Int) : Int := Int.fdiv dt 86400

/-- The computation `rental_days = (dropoff - pickup).days; if rental_days < 1: rental_days = 1`.
Python `timedelta.days` floors toward negative infinity. -/
def rentalDaysOf (pickup dropoff : Int) : Int :=
  let d := Int.fdiv (dropoff - pickup) 86400
  if d < 1 then 1 else d

/-! ## Rate resolver (rates.py lines 175-203, bookings.py lines 222-244) -/

/-- The candidate filter of the rate query: `is_active == True`,
`valid_from <= pickup_date <= valid_until`, `min_days <= rental_days`,
`max_days == None or max_days >= rental_days`. -/
def ratePred (pickup_date rental_days : Int) (r : Rate) : Bool :=
  r.is_active && decide (r.valid_from ≤ pickup_date) &&
    decide (pickup_date ≤ r.valid_until) && decide (r.min_days ≤ rental_days) &&
    (match r.max_days with
     | none => true
     | some m => decide (rental_days ≤ m))

/-- The candidate order `ORDER BY valid_from DESC, id DESC`:
`a` may come no later than `b`. -/
def rateLE (a b : Rate) : Bool :=
  decide (b.valid_from < a.valid_from ∨
    (a.valid_from = b.valid_from ∧ b.id ≤ a.id))

/-- The relation form of `rateLE`, for sorting. -/
def rateOrder (a b : Rate) : Prop := rateLE a b = true

instance : DecidableRel rateOrder := fun a b => by
  unfold rateOrder; infer_instance

instance : IsTotal Rate rateOrder :=
  ⟨by intro a b; unfold rateOrder rateLE; by_cases h : b.valid_from < a.valid_from <;> simp <;> omega⟩

instance : IsTrans Rate rateOrder :=
  ⟨by intro a b c; unfold rateOrder rateLE; simp; omega⟩

/-- Day-range part of the tier filter: `from_days <= rental_days` and
`to_days == None or to_days >= rental_days`. -/
def tierDayOk (t : RateTier) (rental_days : Int) : Bool :=
  decide (t.from_days ≤ rental_days) &&
    (match t.to_days with
     | none => true
     | some td => decide (rental_days ≤ td))

/-- Full tier filter: `rate_id == rid`, `vehicle_group_id == vg`, day range. -/
def tierPred (rid vg : Nat) (rental_days : Int) (t : RateTier) : Bool :=
  t.rate_id == rid && t.vehicle_group_id == vg && tierDayOk t rental_days

/-- The per-rate tier query `db.query(RateTier).filter(...).first()`. -/
def findTier (tiers : List RateTier) (rid vg : Nat) (rental_days : Int) :
    Option RateTier :=
  tiers.find? (tierPred rid vg rental_days)

/-- The ordered candidate list: filter, then `ORDER BY valid_from DESC, id DESC`. -/
def applicableRates (rates : List Rate) (pickup_date rental_days : Int) :
    List Rate :=
  List.insertionSort rateOrder (rates.filter (ratePred pickup_date rental_days))

/-- The `for rate in applicable_rates: ... if tier: ... break` loop:
first candidate owning a matching tier wins. -/
def scanRates (tiers : List RateTier) (vg : Nat) (rental_days : Int)
    (rs : List Rate) : Option (Rate × RateTier) :=
  rs.findSome? (fun r => (findTier tiers r.id vg rental_days).map (fun t => (r, t)))

/-- The shared resolver core of rates.py lines 175-203 and
bookings.py lines 222-244 (the two code sites are identical). -/
def selectRateAndTier (rates : List Rate) (tiers : List RateTier) (vg : Nat)
    (pickup_date rental_days : Int) : Option (Rate × RateTier) :=
  scanRates tiers vg rental_days (applicableRates rates pickup_date rental_days)

/-! ## Fallback prices -/

/-- The expression `float(vehicle.starting_price) if vehicle.starting_price else 50.0`
(rates.py line 151, bookings.py lines 212 and 249). -/
def startingFallback (v : Vehicle) : Rat :=
  if optRatTruthy v.starting_price then v.starting_price.getD 0 else 50

/-- The fallback chain when no rate matched but the vehicle has a group:
`if vehicle_group and vehicle_group.base_price_per_day: ... elif
vehicle.starting_price: ... else 50.0` (rates.py lines 229-234,
bookings.py lines 246-249). -/
def fallbackPrice (g : Option VehicleGroup) (v : Vehicle) : Rat :=
  match g with
  | some vg =>
      if optRatTruthy vg.base_price_per_day then vg.base_price_per_day.getD 0
      else startingFallback v
  | none => startingFallback v

/-! ## bookings.py `_calculate_rate_for_booking` (lines 195-249) -/

def calculateRateForBooking (db : DB) (vehicle_id : Nat)
    (pickup dropoff : Int) : Option Nat × Option Nat × Rat :=
  match findVehicle db vehicle_id with
  | none => (none, none, 50)
  | some v =>
    if !optNatTruthy v.vehicle_group_id then
      (none, none, startingFallback v)
    else
      let rental_days := rentalDaysOf pickup dropoff
      let pickup_date := dateOf pickup
      match selectRateAndTier db.rates db.tiers (v.vehicle_group_id.getD 0)
          pickup_date rental_days with
      | some (r, t) => (some r.id, some t.id, t.price_per_day)
      | none => (none, none, fallbackPrice (findGroup db v.vehicle_group_id) v)

/-! ## bookings.py fee calculators (lines 124-192) -/

/-- Model of `_calculate_one_way_fee(db, pickup_location_id, dropoff_location_id)`. -/
def oneWayFeeBooking (db : DB) (pickup_id dropoff_id : Nat) : Rat :=
  if pickup_id == dropoff_id then 0
  else
    match findLoc db (some pickup_id), findLoc db (some dropoff_id) with
    | some pl, some dl =>
      if strTruthy pl.city && strTruthy dl.city && ciEq pl.city dl.city then 0
      else if strTruthy pl.city && strTruthy dl.city then
        match feeLookup db.fees pl.city dl.city with
        | some f => f.fee_amount
        | none => 0
      else 0
    | _, _ => 0

/-- Model of `_calculate_delivery_fee(db, vehicle_id, pickup_location_id)`. -/
def deliveryFeeBooking (db : DB) (vehicle_id pickup_id : Nat) : Rat :=
  match findVehicle db vehicle_id with
  | none => 0
  | some v =>
    if !optNatTruthy v.location_id then 0
    else if v.location_id == some pickup_id then 0
    else
      match findLoc db v.location_id, findLoc db (some pickup_id) with
      | some vl, some pl =>
        if strTruthy vl.city && strTruthy pl.city && ciEq vl.city pl.city then 0
        else if strTruthy vl.city && strTruthy pl.city then
          match feeLookup db.fees vl.city pl.city with
          | some f => f.fee_amount
          | none => 0
        else 0
      | _, _ => 0

/-! ## rates.py `calculate_price` (lines 65-258) -/

/-- The request body `CalculatePriceRequest`. -/
structure CalcRequest where
  vehicle_id : Nat
  pickup_date : String
  dropoff_date : String
  pickup_location_id : Option Nat
  dropoff_location_id : Option Nat
deriving DecidableEq

/-- The JSON object returned by `calculate_price` (fields relevant to the
pricing engine; keys absent from a branch's dict are `none`). -/
structure Breakdown where
  rate_id : Option Nat
  rate_name : Option String
  vehicle_group_id : Option Nat
  vehicle_group_name : Option String
  rental_days : Int
  price_per_day : Rat
  base_total : Rat
  one_way_fee : Rat
  delivery_fee : Rat
  total_with_fees : Rat
  currency : String
  error_msg : Option String
  fallback_price : Option Rat
deriving DecidableEq

/-- Outcome of the endpoint: an `HTTPException` with a status code, or a
200 response carrying the breakdown object. -/
inductive PriceResult where
  | err (status : Nat)
  | ok (b : Breakdown)
deriving DecidableEq

/-- Python `s.replace('Z', '+00:00')`. -/
def pyReplaceZ (s : String) : String :=
  String.mk (replaceChar 'Z' "+00:00".data s.data)

/-- Python `s.split('T')[0]`. -/
def splitT (s : String) : String :=
  String.mk ((splitOnChar 'T' s.data).headD s.data)

/-- The date-parsing control flow of rates.py lines 90-96: try
`fromisoformat` on both strings (after the `Z` replacement); if either
fails, re-parse both as date-only with `strptime('%Y-%m-%d')` on the part
before `'T'`; if that fails too the `ValueError` escapes to the generic
handler.  `fiso` and `strp` are the standard-library parsers. -/
def parseWindow (fiso strp : String → Option Int) (p d : String) :
    Option (Int × Int) :=
  match fiso (pyReplaceZ p), fiso (pyReplaceZ d) with
  | some a, some b => some (a, b)
  | _, _ =>
    match strp (splitT p), strp (splitT d) with
    | some a, some b => some (a, b)
    | _, _ => none

/-- The inline one-way-fee computation of rates.py lines 108-132. -/
def oneWayFeeRates (db : DB) (req : CalcRequest) : Rat :=
  if optNatTruthy req.pickup_location_id && optNatTruthy req.dropoff_location_id
      && req.pickup_location_id != req.dropoff_location_id then
    match findLoc db req.pickup_location_id, findLoc db req.dropoff_location_id with
    | some pl, some dl =>
      if strTruthy pl.city && strTruthy dl.city then
        if !ciEq pl.city dl.city then
          match feeLookup db.fees pl.city dl.city with
          | some f => f.fee_amount
          | none => 0
        else 0
      else 0
    | _, _ => 0
  else 0

/-- The inline delivery-fee computation of rates.py lines 134-147. -/
def deliveryFeeRates (db : DB) (v : Vehicle) (req : CalcRequest) : Rat :=
  if optNatTruthy req.pickup_location_id && optNatTruthy v.location_id
      && v.location_id != req.pickup_location_id then
    match findLoc db v.location_id, findLoc db req.pickup_location_id with
    | some vl, some pl =>
      if strTruthy vl.city && strTruthy pl.city then
        if !ciEq vl.city pl.city then
          match feeLookup db.fees vl.city pl.city with
          | some f => f.fee_amount
          | none => 0
        else 0
      else 0
    | _, _ => 0
  else 0

def calculatePrice (fiso strp : String → Option Int) (db : DB)
    (req : CalcRequest) : PriceResult :=
  match findVehicle db req.vehicle_id with
  | none => .err 404
  | some v =>
    match parseWindow fiso strp req.pickup_date req.dropoff_date with
    | none => .err 500
    | some (pickup, dropoff) =>
      let rental_days := rentalDaysOf pickup dropoff
      let pickup_date := dateOf pickup
      let ow := oneWayFeeRates db req
      let df := deliveryFeeRates db v req
      if !optNatTruthy v.vehicle_group_id then
        let fp := startingFallback v
        .ok { rate_id := none, rate_name := none, vehicle_group_id := none,
              vehicle_group_name := none, rental_days := rental_days,
              price_per_day := fp, base_total := fp * (rental_days : Rat),
              one_way_fee := ow, delivery_fee := df,
              total_with_fees := fp * (rental_days : Rat) + ow + df,
              currency := "EUR",
              error_msg := some "Vehicle has no vehicle group assigned",
              fallback_price := some fp }
      else
        let vgrp := findGroup db v.vehicle_group_id
        match selectRateAndTier db.rates db.tiers (v.vehicle_group_id.getD 0)
            pickup_date rental_days with
        | some (r, t) =>
          .ok { rate_id := some r.id, rate_name := some r.name,
                vehicle_group_id := v.vehicle_group_id,
                vehicle_group_name := vgrp.map (fun g => g.name),
                rental_days := rental_days,
                price_per_day := t.price_per_day,
                base_total := t.price_per_day * (rental_days : Rat),
                one_way_fee := ow, delivery_fee := df,
                total_with_fees := t.price_per_day * (rental_days : Rat) + ow + df,
                currency := t.currency, error_msg := none, fallback_price := none }
        | none =>
          let fp := fallbackPrice vgrp v
          .ok { rate_id := none, rate_name := none,
                vehicle_group_id := v.vehicle_group_id,
                vehicle_group_name := vgrp.map (fun g => g.name),
                rental_days := rental_days, price_per_day := fp,
                base_total := fp * (rental_days : Rat),
                one_way_fee := ow, delivery_fee := df,
                total_with_fees := fp * (rental_days : Rat) + ow + df,
                currency := "EUR",
                error_msg := some "No active rate found for this vehicle and dates",
                fallback_price := some fp }

/-! ## Contact validation (bookings.py `_validate_contact_payload`, lines 87-121) -/

/-- The email check `re.match(r"^[^@\s]+@[^@\s]+\.[^@\s]+$", email)`:
exactly one `@`, no whitespace, a nonempty local part, and a dot inside the
domain with at least one character on each side. -/
def emailOk (s : String) : Bool :=
  match splitOnChar '@' s.data with
  | [lp, dom] =>
      decide (lp ≠ []) && s.data.all (fun c => !isSpaceChar c) &&
      ((dom.drop 1).dropLast.contains '.')
  | _ => false

/-- Model of `_validate_contact_payload(payload, required)` as a predicate: `true`
when no `HTTPException(400)` is raised.  The arguments are the payload's
contact entries (`none` = key absent, `payload.get` then defaults to `""`
for email/first/last and to `None` for phone). -/
def validateContactOk (required : Bool)
    (email first last phone : Option String) : Bool :=
  let e := pyStrip (email.getD "")
  let f := pyStrip (first.getD "")
  let l := pyStrip (last.getD "")
  (!required || (decide (f ≠ "") && decide (l ≠ ""))) &&
  (decide (e = "") || emailOk e) &&
  (decide (f = "") || decide (f.length ≤ 100)) &&
  (decide (l = "") || decide (l.length ≤ 100)) &&
  (match phone with
   | none => true
   | some ph => !strTruthy ph || decide (ph.length ≤ 50))

/-! ## Booking update (bookings.py `update_booking` lines 428-452 and
`partial_update_booking` lines 455-480) -/

/-- An update payload: the outer `Option` is key presence in the JSON dict,
the inner value is what the key maps to (nullable columns carry an inner
`Option`).  Only columns of the `Booking` table are modelled, matching
`apply_updates`, which ignores non-column keys. -/
structure BookingPayload where
  pickup_location_id : Option (Option Nat)
  dropoff_location_id : Option (Option Nat)
  rate_id : Option (Option Nat)
  rate_tier_id : Option (Option Nat)
  price_per_day : Option (Option Rat)
  one_way_fee : Option (Option Rat)
  delivery_fee : Option (Option Rat)
  contact_first_name : Option String
  contact_last_name : Option String
  contact_email : Option String
  contact_phone : Option String
deriving DecidableEq

/-- Model of `apply_updates(obj, payload)` (routes/utils.py): every payload key that
is a column of the table is assigned onto the row. -/
def applyUpdates (b : BookingRow) (p : BookingPayload) : BookingRow :=
  { b with
    pickup_location_id := p.pickup_location_id.getD b.pickup_location_id,
    dropoff_location_id := p.dropoff_location_id.getD b.dropoff_location_id,
    rate_id := p.rate_id.getD b.rate_id,
    rate_tier_id := p.rate_tier_id.getD b.rate_tier_id,
    price_per_day := p.price_per_day.getD b.price_per_day,
    one_way_fee := p.one_way_fee.getD b.one_way_fee,
    delivery_fee := p.delivery_fee.getD b.delivery_fee,
    contact_first_name := p.contact_first_name.getD b.contact_first_name,
    contact_last_name := p.contact_last_name.getD b.contact_last_name,
    contact_email := (p.contact_email.map some).getD b.contact_email,
    contact_phone := (p.contact_phone.map some).getD b.contact_phone }

/-- The check `any(k in payload for k in contact_keys)`. -/
def hasContactKeys (p : BookingPayload) : Bool :=
  p.contact_first_name.isSome || p.contact_last_name.isSome ||
  p.contact_email.isSome || p.contact_phone.isSome

/-- Model of `update_booking` (PUT), given the booking row it found: validate contact
fields when present, apply the payload, recompute the one-way fee when a
location key was in the payload and both locations are set, then commit
(`commitOk` is the database's verdict; `False` is an `IntegrityError`,
answered with rollback and a 400). -/
def updateBooking (db : DB) (b : BookingRow) (p : BookingPayload)
    (commitOk : Bool) : Except Nat BookingRow :=
  if hasContactKeys p && !validateContactOk false p.contact_email
      p.contact_first_name p.contact_last_name p.contact_phone then
    .error 400
  else
    let b1 := applyUpdates b p
    let b2 :=
      if p.pickup_location_id.isSome || p.dropoff_location_id.isSome then
        if optNatTruthy b1.pickup_location_id && optNatTruthy b1.dropoff_location_id then
          { b1 with one_way_fee := some (oneWayFeeBooking db
              (b1.pickup_location_id.getD 0) (b1.dropoff_location_id.getD 0)) }
        else b1
      else b1
    if commitOk then .ok b2 else .error 400

/-- Model of `partial_update_booking` (PATCH, lines 455-480): its body is verbatim
the body of `update_booking`. -/
def partialUpdateBooking (db : DB) (b : BookingRow) (p : BookingPayload)
    (commitOk : Bool) : Except Nat BookingRow :=
  updateBooking db b p commitOk

/-! ## Booking creation (bookings.py `_find_or_create_user` lines 21-84 and
`create_booking` lines 333-425) -/

/-- The two-step normalisation at the top of `_find_or_create_user`:
strip when truthy, then turn an empty result into `None`. -/
def normContact (o : Option String) : Option String :=
  match o with
  | none => none
  | some s =>
    if strTruthy s then
      let t := pyStrip s
      if strTruthy t then some t else none
    else none

/-- Writing a mutated ORM row back into its table. -/
def replaceUser (users : List UserRow) (u : UserRow) : List UserRow :=
  users.map (fun x => if x.id == u.id then u else x)

/-- Model of `_find_or_create_user`: match by email, else by phone (updating a stale
email), else create a guest user (placeholder email from the phone or the
current timestamp); `db.add` + `db.flush` only — no commit.  Returns the
user and the updated (uncommitted) user table; `nextId` is the primary key
the flush assigns, `nowTs` is `datetime.utcnow().timestamp()`. -/
def findOrCreateUser (users : List UserRow) (nextId nowTs : Nat)
    (contact_email contact_phone : Option String) (first last : String) :
    UserRow × List UserRow :=
  let ce := normContact contact_email
  let cp := normContact contact_phone
  let byEmail : Option UserRow := match ce with
    | some e => users.find? (fun u => u.email == e)
    | none => none
  let found : Option UserRow :=
    match byEmail, cp with
    | some u, _ => some u
    | none, some ph =>
      match users.find? (fun (u : UserRow) => u.phone == some ph) with
      | some u =>
        match ce with
        | some e => if u.email ≠ e then some { u with email := e } else some u
        | none => some u
      | none => none
    | none, none => none
  match found with
  | none =>
    let mail := match ce with
      | some e => e
      | none => match cp with
        | some ph => "guest_" ++ String.mk (replaceChar ' ' [] (replaceChar '+' [] ph.data)) ++ "@tbilisicars.local"
        | none => "guest_" ++ toString nowTs ++ "@tbilisicars.local"
    let u : UserRow := { id := nextId, first_name := first, last_name := last,
                         email := mail, phone := cp,
                         is_active := true, is_superuser := false }
    (u, users ++ [u])
  | some u =>
    let u1 := if u.first_name ≠ first ∨ u.last_name ≠ last then
        { u with first_name := first, last_name := last } else u
    let u2 := match cp with
      | some ph => if u1.phone ≠ some ph then { u1 with phone := some ph } else u1
      | none => u1
    let u3 := match ce with
      | some e => if u2.email ≠ e then { u2 with email := e } else u2
      | none => u2
    (u3, replaceUser users u3)

/-- A creation payload.  `pickup_datetime`/`dropoff_datetime` hold the
already-parsed datetimes (the ISO-string branch of `create_booking` is the
standard-library parsing modelled at `parseWindow`). -/
structure CreatePayload where
  user_id : Option Nat
  contact_first_name : Option String
  contact_last_name : Option String
  contact_email : Option String
  contact_phone : Option String
  vehicle_id : Option Nat
  pickup_location_id : Option Nat
  dropoff_location_id : Option Nat
  pickup_datetime : Option Int
  dropoff_datetime : Option Int
deriving DecidableEq

/-- Model of `Booking()` followed by `apply_updates(obj, payload)` for a fresh row. -/
def bookingFromPayload (p : CreatePayload) (bid : Nat) : BookingRow :=
  { id := bid, user_id := p.user_id, vehicle_id := p.vehicle_id,
    pickup_location_id := p.pickup_location_id,
    dropoff_location_id := p.dropoff_location_id,
    pickup_datetime := p.pickup_datetime,
    dropoff_datetime := p.dropoff_datetime,
    rate_id := none, rate_tier_id := none, price_per_day := none,
    one_way_fee := none, delivery_fee := none,
    contact_first_name := p.contact_first_name.getD "",
    contact_last_name := p.contact_last_name.getD "",
    contact_email := p.contact_email, contact_phone := p.contact_phone }

/-- One request-scoped database session: `committed` is what the store
durably holds, `work` is the transaction's view (committed state plus
flushed-but-uncommitted changes).  A successful commit publishes `work`;
a rollback resets the session to `committed`. -/
structure Session where
  committed : DB
  work : DB
deriving DecidableEq

/-- The transaction body of `create_booking` after validation: find-or-create
the guest user inside the open transaction (flush, no commit), build the
booking row, snapshot rate and fees onto it, and add it to the session's
working state.  Returns the row and the would-be database state. -/
def createBookingWork (s : Session) (p : CreatePayload)
    (nextUserId nextBookingId nowTs : Nat) : BookingRow × DB :=
    let userWork :=
      if !optNatTruthy p.user_id then
        let r := findOrCreateUser s.work.users nextUserId nowTs
          p.contact_email p.contact_phone
          (p.contact_first_name.getD "") (p.contact_last_name.getD "")
        (some r.1, { s.work with users := r.2 })
      else (none, s.work)
    let work1 := userWork.2
    let obj := bookingFromPayload p nextBookingId
    let obj := match userWork.1 with
      | some u => { obj with user_id := some u.id }
      | none => obj
    let obj :=
      if optNatTruthy obj.vehicle_id && obj.pickup_datetime.isSome
          && obj.dropoff_datetime.isSome then
        let rtp := calculateRateForBooking work1 (obj.vehicle_id.getD 0)
          (obj.pickup_datetime.getD 0) (obj.dropoff_datetime.getD 0)
        { obj with rate_id := rtp.1, rate_tier_id := rtp.2.1,
                   price_per_day := some rtp.2.2 }
      else obj
    let obj :=
      if optNatTruthy obj.vehicle_id && optNatTruthy obj.pickup_location_id then
        { obj with delivery_fee := some (deliveryFeeBooking work1
            (obj.vehicle_id.getD 0) (obj.pickup_location_id.getD 0)) }
      else obj
    let obj :=
      if optNatTruthy obj.pickup_location_id && optNatTruthy obj.dropoff_location_id then
        { obj with one_way_fee := some (oneWayFeeBooking work1
            (obj.pickup_location_id.getD 0) (obj.dropoff_location_id.getD 0)) }
      else obj
    let work2 := { work1 with bookings := work1.bookings ++ [obj] }
    (obj, work2)

/-- Model of `create_booking`: validate the contact fields, run the transaction body
(`createBookingWork`), then commit once; an `IntegrityError` (`commitOk`
false on the would-be state) triggers `db.rollback()` before the 400
propagates, so nothing of the transaction — the flushed guest user
included — reaches the committed store. -/
def createBooking (s : Session) (p : CreatePayload)
    (nextUserId nextBookingId nowTs : Nat) (commitOk : DB → Bool) :
    Except Nat BookingRow × Session :=
  if !validateContactOk true p.contact_email p.contact_first_name
      p.contact_last_name p.contact_phone then
    (.error 400, s)
  else
    let r := createBookingWork s p nextUserId nextBookingId nowTs
    if commitOk r.2 then
      (.ok r.1, { committed := r.2, work := r.2 })
    else
      (.error 400, { committed := s.committed, work := s.committed })

/-! ## Theorems -/

/-- An empty database, used as a concrete fixture. -/
def emptyDB : DB :=
  { vehicles := [], groups := [], locations := [], rates := [], tiers := [],
    fees := [], users := [], bookings := [] }

/-- Claim C2: for every pickup and dropoff datetime pair, the computed
rental_days equals `max 1 (floor of the whole-day difference)`; any window
shorter than 24 hours (zero and negative differences included) yields
rental_days = 1, never 0. -/
theorem rental_days_max_one_floor (pickup dropoff : Int) :
    rentalDaysOf pickup dropoff = max 1 (Int.fdiv (dropoff - pickup) 86400) ∧
    (dropoff - pickup < 86400 → rentalDaysOf pickup dropoff = 1) := by
  have h : Int.fdiv (dropoff - pickup) 86400 = (dropoff - pickup) / 86400 :=
    Int.fdiv_eq_ediv _ (by norm_num)
  constructor
  · show (if Int.fdiv (dropoff - pickup) 86400 < 1 then (1 : Int)
        else Int.fdiv (dropoff - pickup) 86400) = _
    rw [h]
    split <;> omega
  · intro hlt
    show (if Int.fdiv (dropoff - pickup) 86400 < 1 then (1 : Int)
        else Int.fdiv (dropoff - pickup) 86400) = 1
    rw [h]
    split <;> omega

/-- Witness for C2: a 1-hour window gives one rental day. -/
theorem rental_days_max_one_floor_witness : rentalDaysOf 0 3600 = 1 :=
  (rental_days_max_one_floor 0 3600).2 (by decide)

/-- Claim C5: a tier matches rental_days iff `from_days ≤ rental_days` and
(`to_days` is null or `rental_days ≤ to_days`); a [4,7] tier matches exactly
4..7, and a null `to_days` matches every rental_days ≥ from_days. -/
theorem tier_day_range_matching :
    (∀ (t : RateTier) (d : Int), tierDayOk t d = true ↔
        (t.from_days ≤ d ∧ ∀ td, t.to_days = some td → d ≤ td)) ∧
    (∀ t : RateTier, t.from_days = 4 → t.to_days = some 7 →
        ∀ d : Int, (tierDayOk t d = true ↔ (4 ≤ d ∧ d ≤ 7))) ∧
    (∀ t : RateTier, t.to_days = none →
        ∀ d : Int, (tierDayOk t d = true ↔ t.from_days ≤ d)) := by
  refine ⟨?_, ?_, ?_⟩
  · intro t d
    unfold tierDayOk
    cases h : t.to_days <;> simp [h]
  · intro t h4 h7 d
    unfold tierDayOk
    rw [h4, h7]
    simp
  · intro t hn d
    unfold tierDayOk
    rw [hn]
    simp

/-- Witness for C5: the [4,7] tier matches 5 days. -/
theorem tier_day_range_matching_witness :
    tierDayOk ⟨0, 0, 0, 4, some 7, 36, "EUR"⟩ 5 = true :=
  (tier_day_range_matching.2.1 ⟨0, 0, 0, 4, some 7, 36, "EUR"⟩ rfl rfl 5).mpr
    (by decide)

/-- Claim C10: a stored 0 behaves like an unset value across the fallback
chain: a 0 `base_price_per_day` is skipped in favour of `starting_price`,
and a 0 `starting_price` yields the hardcoded 50, also through the booking
rate calculation of a group-less vehicle. -/
theorem zero_prices_treated_as_unset :
    (∀ (vg : VehicleGroup) (v : Vehicle), vg.base_price_per_day = some 0 →
        fallbackPrice (some vg) v = startingFallback v) ∧
    (∀ v : Vehicle, v.starting_price = some 0 → startingFallback v = 50) ∧
    (∀ (db : DB) (vid : Nat) (p d : Int) (v : Vehicle),
        findVehicle db vid = some v → v.vehicle_group_id = none →
        v.starting_price = some 0 →
        calculateRateForBooking db vid p d = (none, none, 50)) := by
  refine ⟨?_, ?_, ?_⟩
  · intro vg v h
    simp [fallbackPrice, optRatTruthy, h]
  · intro v h
    simp [startingFallback, optRatTruthy, h]
  · intro db vid p d v hv hg hs
    unfold calculateRateForBooking
    rw [hv]
    simp [optNatTruthy, hg, startingFallback, optRatTruthy, hs]

/-- Witness for C10: a group-less vehicle with `starting_price = 0` is
priced at the default 50. -/
theorem zero_prices_treated_as_unset_witness :
    calculateRateForBooking
      { vehicles := [⟨9, none, none, some 0⟩], groups := [], locations := [],
        rates := [], tiers := [], fees := [], users := [], bookings := [] }
      9 0 86400 = (none, none, 50) :=
  zero_prices_treated_as_unset.2.2 _ 9 0 86400 ⟨9, none, none, some 0⟩
    (by decide) rfl rfl

/-- Claim C3: for a vehicle whose vehicle_group_id is null, rate resolution
returns `(null, null, fallback)` with fallback `vehicle.starting_price` when
that is set (truthy, per the code's `if vehicle.starting_price`) and 50.0
otherwise; no RateTier (or Rate) lookup happens — the result is the same for
every content of those tables — and no error is raised (the HTTP endpoint
answers 200 with a breakdown). -/
theorem no_group_resolution
    (db : DB) (vid : Nat) (pickup dropoff : Int) (v : Vehicle)
    (hv : findVehicle db vid = some v) (hg : v.vehicle_group_id = none) :
    (∀ (rs : List Rate) (ts : List RateTier),
        calculateRateForBooking { db with rates := rs, tiers := ts } vid
          pickup dropoff = (none, none, startingFallback v)) ∧
    (v.starting_price = none →
        calculateRateForBooking db vid pickup dropoff = (none, none, 50)) ∧
    (∀ p : Rat, v.starting_price = some p → p ≠ 0 →
        calculateRateForBooking db vid pickup dropoff = (none, none, p)) ∧
    (∀ (fiso strp : String → Option Int) (req : CalcRequest)
        (rs : List Rate) (ts : List RateTier),
        req.vehicle_id = vid →
        (∃ pk dp, parseWindow fiso strp req.pickup_date req.dropoff_date
            = some (pk, dp)) →
        ∃ b, calculatePrice fiso strp { db with rates := rs, tiers := ts } req
            = .ok b ∧
          b.rate_id = none ∧ b.rate_name = none ∧
          b.price_per_day = startingFallback v ∧ b.error_msg.isSome = true) := by
  refine ⟨?_, ?_, ?_, ?_⟩
  · intro rs ts
    unfold calculateRateForBooking
    have hv' : findVehicle { db with rates := rs, tiers := ts } vid = some v := hv
    rw [hv']
    simp [hg, optNatTruthy]
  · intro hs
    unfold calculateRateForBooking
    rw [hv]
    simp [hg, optNatTruthy, startingFallback, optRatTruthy, hs]
  · intro p hs hp
    unfold calculateRateForBooking
    rw [hv]
    simp [hg, optNatTruthy, startingFallback, optRatTruthy, hs, hp]
  · intro fiso strp req rs ts hreq hpw
    obtain ⟨pk, dp, hpw⟩ := hpw
    unfold calculatePrice
    have hv' : findVehicle { db with rates := rs, tiers := ts } req.vehicle_id
        = some v := by rw [hreq]; exact hv
    rw [hv', hpw]
    simp only [hg, optNatTruthy, Bool.not_false]
    exact ⟨_, rfl, rfl, rfl, rfl, rfl⟩

/-- Witness for C3: a group-less vehicle with starting price 40. -/
theorem no_group_resolution_witness :
    calculateRateForBooking
      { vehicles := [⟨6, none, none, some 40⟩], groups := [], locations := [],
        rates := [], tiers := [], fees := [], users := [], bookings := [] }
      6 0 86400 = (none, none, 40) :=
  (no_group_resolution _ 6 0 86400 ⟨6, none, none, some 40⟩
    (by decide) rfl).2.2.1 40 rfl (by norm_num)

/-- Claim C4: the city-fee lookup returns 0 without consulting the fee table
when a city is unknown (falsy) or the two cities are equal case-insensitively;
otherwise it returns the `fee_amount` of the active row matching
`(from_city, to_city)` case-insensitively, and 0 when no such row exists —
never trying the reverse direction. -/
theorem city_fee_lookup_semantics
    (db : DB) (pid did : Nat) (pl dl : Location)
    (hp : findLoc db (some pid) = some pl)
    (hd : findLoc db (some did) = some dl) :
    ((strTruthy pl.city = false ∨ strTruthy dl.city = false) →
        ∀ fs : List OneWayFee,
          oneWayFeeBooking { db with fees := fs } pid did = 0) ∧
    (ciEq pl.city dl.city = true →
        ∀ fs : List OneWayFee,
          oneWayFeeBooking { db with fees := fs } pid did = 0) ∧
    (pid ≠ did → strTruthy pl.city = true → strTruthy dl.city = true →
        ciEq pl.city dl.city = false →
        (∀ f : OneWayFee, feeLookup db.fees pl.city dl.city = some f →
            oneWayFeeBooking db pid did = f.fee_amount) ∧
        (feeLookup db.fees pl.city dl.city = none →
            oneWayFeeBooking db pid did = 0)) := by
  refine ⟨?_, ?_, ?_⟩
  · intro h fs
    unfold oneWayFeeBooking
    have hp' : findLoc { db with fees := fs } (some pid) = some pl := hp
    have hd' : findLoc { db with fees := fs } (some did) = some dl := hd
    by_cases hpd : (pid == did) = true
    · simp [hpd]
    · simp only [Bool.not_eq_true] at hpd
      rw [hpd, hp', hd']
      rcases h with h | h <;> simp [h]
  · intro hci fs
    unfold oneWayFeeBooking
    have hp' : findLoc { db with fees := fs } (some pid) = some pl := hp
    have hd' : findLoc { db with fees := fs } (some did) = some dl := hd
    by_cases hpd : (pid == did) = true
    · simp [hpd]
    · simp only [Bool.not_eq_true] at hpd
      rw [hpd, hp', hd']
      by_cases h1 : strTruthy pl.city <;> by_cases h2 : strTruthy dl.city <;>
        simp [h1, h2, hci]
  · intro hne h1 h2 hci
    have hpd : (pid == did) = false := by simp [hne]
    constructor
    · intro f hf
      unfold oneWayFeeBooking
      rw [hpd, hp, hd]
      simp [h1, h2, hci, hf]
    · intro hf
      unfold oneWayFeeBooking
      rw [hpd, hp, hd]
      simp [h1, h2, hci, hf]

/-- Witness for C4: an active Batumi→Tbilisi fee row of 25 is returned for
that direction. -/
theorem city_fee_lookup_semantics_witness :
    oneWayFeeBooking
      { vehicles := [], groups := [],
        locations := [⟨1, "Batumi"⟩, ⟨2, "Tbilisi"⟩],
        rates := [], tiers := [],
        fees := [⟨1, "batumi", "TBILISI", 25, "EUR", true⟩],
        users := [], bookings := [] } 1 2 = 25 :=
  ((city_fee_lookup_semantics _ 1 2 ⟨1, "Batumi"⟩ ⟨2, "Tbilisi"⟩
      (by decide) (by decide)).2.2 (by decide) (by decide) (by decide)
      (by decide)).1 ⟨1, "batumi", "TBILISI", 25, "EUR", true⟩ (by decide)

/-- Claim C6: every successful calculate-price response satisfies
`base_total = price_per_day * rental_days` and
`total_with_fees = base_total + one_way_fee + delivery_fee`, and the two fee
fields carry the location-derived fee values identically in all three
branches (rate resolved, fallback pricing, no vehicle group). -/
theorem breakdown_consistency
    (fiso strp : String → Option Int) (db : DB) (req : CalcRequest)
    (v : Vehicle) (hv : findVehicle db req.vehicle_id = some v)
    (pk dp : Int)
    (hparse : parseWindow fiso strp req.pickup_date req.dropoff_date
      = some (pk, dp)) :
    ∃ b, calculatePrice fiso strp db req = .ok b ∧
      b.base_total = b.price_per_day * (b.rental_days : Rat) ∧
      b.total_with_fees = b.base_total + b.one_way_fee + b.delivery_fee ∧
      b.one_way_fee = oneWayFeeRates db req ∧
      b.delivery_fee = deliveryFeeRates db v req := by
  unfold calculatePrice
  rw [hv, hparse]
  by_cases hg : optNatTruthy v.vehicle_group_id
  · simp only [hg, Bool.not_true, Bool.false_eq_true, if_false]
    rcases hsel : selectRateAndTier db.rates db.tiers (v.vehicle_group_id.getD 0)
        (dateOf pk) (rentalDaysOf pk dp) with _ | ⟨r, t⟩ <;>
      · simp only [hsel]
        exact ⟨_, rfl, rfl, rfl, rfl, rfl⟩
  · simp only [Bool.not_eq_true] at hg
    simp only [hg, Bool.not_false, if_true]
    exact ⟨_, rfl, rfl, rfl, rfl, rfl⟩

/-- Witness for C6: concrete request resolving a rate, with consistent
breakdown fields. -/
theorem breakdown_consistency_witness :
    ∃ b, calculatePrice
        (fun s => if s = "p" then some 864000 else some 1036800)
        (fun _ => none)
        { vehicles := [⟨5, some 1, none, some 40⟩],
          groups := [⟨1, "G", none⟩], locations := [],
          rates := [⟨1, "R1", 0, 100000, 1, none, true⟩],
          tiers := [⟨7, 1, 1, 0, some 3, 36, "EUR"⟩],
          fees := [], users := [], bookings := [] }
        { vehicle_id := 5, pickup_date := "p", dropoff_date := "d",
          pickup_location_id := none, dropoff_location_id := none } = .ok b ∧
      b.base_total = b.price_per_day * (b.rental_days : Rat) ∧
      b.total_with_fees = b.base_total + b.one_way_fee + b.delivery_fee ∧
      b.one_way_fee = oneWayFeeRates
        { vehicles := [⟨5, some 1, none, some 40⟩],
          groups := [⟨1, "G", none⟩], locations := [],
          rates := [⟨1, "R1", 0, 100000, 1, none, true⟩],
          tiers := [⟨7, 1, 1, 0, some 3, 36, "EUR"⟩],
          fees := [], users := [], bookings := [] }
        { vehicle_id := 5, pickup_date := "p", dropoff_date := "d",
          pickup_location_id := none, dropoff_location_id := none } ∧
      b.delivery_fee = deliveryFeeRates
        { vehicles := [⟨5, some 1, none, some 40⟩],
          groups := [⟨1, "G", none⟩], locations := [],
          rates := [⟨1, "R1", 0, 100000, 1, none, true⟩],
          tiers := [⟨7, 1, 1, 0, some 3, 36, "EUR"⟩],
          fees := [], users := [], bookings := [] }
        ⟨5, some 1, none, some 40⟩
        { vehicle_id := 5, pickup_date := "p", dropoff_date := "d",
          pickup_location_id := none, dropoff_location_id := none } :=
  breakdown_consistency _ _ _ _ ⟨5, some 1, none, some 40⟩ (by decide)
    864000 1036800 (by decide)

/-- Claim C9 (amended): a calculate-price request whose pickup or dropoff
string is parseable neither as a full ISO timestamp nor as a date-only
string fails — but through the generic exception handler as an HTTP 500,
not as a 400. -/
theorem unparseable_dates_give_500
    (fiso strp : String → Option Int) (db : DB) (req : CalcRequest)
    (v : Vehicle) (hv : findVehicle db req.vehicle_id = some v)
    (hbad : (fiso (pyReplaceZ req.pickup_date) = none ∧
             strp (splitT req.pickup_date) = none) ∨
            (fiso (pyReplaceZ req.dropoff_date) = none ∧
             strp (splitT req.dropoff_date) = none)) :
    calculatePrice fiso strp db req = .err 500 := by
  have hpw : parseWindow fiso strp req.pickup_date req.dropoff_date = none := by
    rcases hbad with ⟨h1, h2⟩ | ⟨h1, h2⟩
    · rcases hd : fiso (pyReplaceZ req.dropoff_date) with _ | x <;>
        rcases hsd : strp (splitT req.dropoff_date) with _ | y <;>
          simp [parseWindow, h1, h2, hd, hsd]
    · rcases hpk : fiso (pyReplaceZ req.pickup_date) with _ | x <;>
        rcases hsp : strp (splitT req.pickup_date) with _ | y <;>
          simp [parseWindow, h1, h2, hpk, hsp]
  unfold calculatePrice
  rw [hv, hpw]

/-- Witness for C9's amended theorem. -/
theorem unparseable_dates_give_500_witness :
    calculatePrice (fun _ => none) (fun _ => none)
      { vehicles := [⟨5, none, none, none⟩], groups := [], locations := [],
        rates := [], tiers := [], fees := [], users := [], bookings := [] }
      { vehicle_id := 5, pickup_date := "not-a-date",
        dropoff_date := "2025-11-10", pickup_location_id := none,
        dropoff_location_id := none } = .err 500 :=
  unparseable_dates_give_500 _ _ _ _ ⟨5, none, none, none⟩ (by decide)
    (Or.inl ⟨rfl, rfl⟩)

/-- Counterexample for C9 as stated: on a doubly-unparseable date string the
endpoint fails with HTTP 500 (the generic handler), not with a
400-equivalent. -/
theorem unparseable_dates_not_400 :
    calculatePrice (fun _ => none) (fun _ => none)
      { vehicles := [⟨5, none, none, none⟩], groups := [], locations := [],
        rates := [], tiers := [], fees := [], users := [], bookings := [] }
      { vehicle_id := 5, pickup_date := "garbage", dropoff_date := "garbage",
        pickup_location_id := none, dropoff_location_id := none }
      = .err 500 ∧
    calculatePrice (fun _ => none) (fun _ => none)
      { vehicles := [⟨5, none, none, none⟩], groups := [], locations := [],
        rates := [], tiers := [], fees := [], users := [], bookings := [] }
      { vehicle_id := 5, pickup_date := "garbage", dropoff_date := "garbage",
        pickup_location_id := none, dropoff_location_id := none }
      ≠ .err 400 := ⟨by decide, by decide⟩

/-- Claim C7: a booking update (PUT or PATCH) whose payload touches
`pickup_location_id` or `dropoff_location_id` — and does not itself carry the
pricing columns — recomputes only `one_way_fee` among the pricing fields:
`price_per_day`, `rate_id`, `rate_tier_id` and `delivery_fee` keep their
persisted values; PATCH behaves exactly like PUT. -/
theorem update_recomputes_only_one_way_fee
    (db : DB) (b : BookingRow) (p : BookingPayload) (commitOk : Bool)
    (hloc : p.pickup_location_id.isSome = true ∨
            p.dropoff_location_id.isSome = true)
    (h1 : p.price_per_day = none) (h2 : p.rate_id = none)
    (h3 : p.rate_tier_id = none) (h4 : p.delivery_fee = none)
    (b' : BookingRow) (hok : updateBooking db b p commitOk = .ok b') :
    b'.price_per_day = b.price_per_day ∧ b'.rate_id = b.rate_id ∧
    b'.rate_tier_id = b.rate_tier_id ∧ b'.delivery_fee = b.delivery_fee ∧
    (optNatTruthy (applyUpdates b p).pickup_location_id = true →
      optNatTruthy (applyUpdates b p).dropoff_location_id = true →
      b'.one_way_fee = some (oneWayFeeBooking db
        ((applyUpdates b p).pickup_location_id.getD 0)
        ((applyUpdates b p).dropoff_location_id.getD 0))) ∧
    partialUpdateBooking db b p commitOk = updateBooking db b p commitOk := by
  have hsplit : p.pickup_location_id.isSome || p.dropoff_location_id.isSome := by
    rcases hloc with h | h <;> simp [h]
  unfold updateBooking at hok
  by_cases hval : (hasContactKeys p && !validateContactOk false p.contact_email
      p.contact_first_name p.contact_last_name p.contact_phone) = true
  · rw [if_pos hval] at hok
    exact absurd hok (by simp)
  · rw [if_neg hval] at hok
    rcases hco : commitOk with _ | _
    · rw [hco] at hok
      exact absurd hok (by simp)
    · rw [hco] at hok
      simp only [if_true] at hok
      rw [if_pos hsplit] at hok
      by_cases hbt : (optNatTruthy (applyUpdates b p).pickup_location_id &&
          optNatTruthy (applyUpdates b p).dropoff_location_id) = true
      · rw [if_pos hbt] at hok
        injection hok with h
        subst h
        refine ⟨?_, ?_, ?_, ?_, fun _ _ => rfl, rfl⟩ <;>
          simp [applyUpdates, h1, h2, h3, h4]
      · rw [if_neg hbt] at hok
        injection hok with h
        subst h
        refine ⟨?_, ?_, ?_, ?_, ?_, rfl⟩
        · simp [applyUpdates, h1]
        · simp [applyUpdates, h2]
        · simp [applyUpdates, h3]
        · simp [applyUpdates, h4]
        · intro ht1 ht2
          rw [ht1, ht2] at hbt
          simp at hbt

/-- Witness for C7: moving a booking's dropoff to another location updates
only the one-way fee. -/
theorem update_recomputes_only_one_way_fee_witness :
    ∃ b', updateBooking
        { vehicles := [], groups := [],
          locations := [⟨1, "Batumi"⟩, ⟨2, "Tbilisi"⟩],
          rates := [], tiers := [],
          fees := [⟨1, "Batumi", "Tbilisi", 25, "EUR", true⟩],
          users := [], bookings := [] }
        { id := 3, user_id := some 1, vehicle_id := some 5,
          pickup_location_id := some 1, dropoff_location_id := some 1,
          pickup_datetime := some 0, dropoff_datetime := some 86400,
          rate_id := some 1, rate_tier_id := some 7, price_per_day := some 36,
          one_way_fee := some 0, delivery_fee := some 0,
          contact_first_name := "A", contact_last_name := "B",
          contact_email := none, contact_phone := none }
        { pickup_location_id := none, dropoff_location_id := some (some 2),
          rate_id := none, rate_tier_id := none, price_per_day := none,
          one_way_fee := none, delivery_fee := none,
          contact_first_name := none, contact_last_name := none,
          contact_email := none, contact_phone := none }
        true = .ok b' ∧
      b'.price_per_day = some 36 ∧ b'.rate_id = some 1 ∧
      b'.rate_tier_id = some 7 ∧ b'.delivery_fee = some 0 := by
  have h := update_recomputes_only_one_way_fee
    { vehicles := [], groups := [],
      locations := [⟨1, "Batumi"⟩, ⟨2, "Tbilisi"⟩],
      rates := [], tiers := [],
      fees := [⟨1, "Batumi", "Tbilisi", 25, "EUR", true⟩],
      users := [], bookings := [] }
    { id := 3, user_id := some 1, vehicle_id := some 5,
      pickup_location_id := some 1, dropoff_location_id := some 1,
      pickup_datetime := some 0, dropoff_datetime := some 86400,
      rate_id := some 1, rate_tier_id := some 7, price_per_day := some 36,
      one_way_fee := some 0, delivery_fee := some 0,
      contact_first_name := "A", contact_last_name := "B",
      contact_email := none, contact_phone := none }
    { pickup_location_id := none, dropoff_location_id := some (some 2),
      rate_id := none, rate_tier_id := none, price_per_day := none,
      one_way_fee := none, delivery_fee := none,
      contact_first_name := none, contact_last_name := none,
      contact_email := none, contact_phone := none }
    true (Or.inr (by decide)) rfl rfl rfl rfl _ rfl
  exact ⟨_, rfl, h.1, h.2.1, h.2.2.1, h.2.2.2.1⟩

/-- Claim C8: when booking persistence fails (the commit is refused with a
constraint violation), the whole transaction is rolled back before the error
propagates: the committed store — the guest user created inside the
transaction included — is exactly what it was before the request. -/
theorem create_booking_rollback_atomic
    (s : Session) (p : CreatePayload) (nextUserId nextBookingId nowTs : Nat)
    (commitOk : DB → Bool) (hfresh : s.work = s.committed) (e : Nat)
    (herr : (createBooking s p nextUserId nextBookingId nowTs commitOk).1
      = .error e) :
    (createBooking s p nextUserId nextBookingId nowTs commitOk).2.committed
        = s.committed ∧
    (createBooking s p nextUserId nextBookingId nowTs commitOk).2.work
        = s.committed ∧
    (createBooking s p nextUserId nextBookingId nowTs commitOk).2.committed.users
        = s.committed.users := by
  unfold createBooking at herr ⊢
  by_cases hval : (!validateContactOk true p.contact_email p.contact_first_name
      p.contact_last_name p.contact_phone) = true
  · rw [if_pos hval]
    exact ⟨rfl, hfresh, rfl⟩
  · rw [if_neg hval] at herr ⊢
    by_cases hc : commitOk (createBookingWork s p nextUserId nextBookingId nowTs).2
        = true
    · rw [if_pos hc] at herr
      exact absurd herr (by simp)
    · rw [if_neg hc]
      exact ⟨rfl, rfl, rfl⟩

/-- Witness for C8: a refused commit leaves the store without the guest
user the request created. -/
theorem create_booking_rollback_atomic_witness :
    (createBooking { committed := emptyDB, work := emptyDB }
      { user_id := none, contact_first_name := some "Ana",
        contact_last_name := some "K", contact_email := some "ana@k.ge",
        contact_phone := none, vehicle_id := none,
        pickup_location_id := none, dropoff_location_id := none,
        pickup_datetime := none, dropoff_datetime := none }
      1 1 0 (fun _ => false)).2.committed.users = [] :=
  (create_booking_rollback_atomic { committed := emptyDB, work := emptyDB }
    { user_id := none, contact_first_name := some "Ana",
      contact_last_name := some "K", contact_email := some "ana@k.ge",
      contact_phone := none, vehicle_id := none,
      pickup_location_id := none, dropoff_location_id := none,
      pickup_datetime := none, dropoff_datetime := none }
    1 1 0 (fun _ => false) rfl 400 rfl).2.2

/-! ## Helper lemmas for the resolver-precedence claim -/

theorem rateLE_refl (a : Rate) : rateLE a a = true := by
  unfold rateLE
  simp

/-- Mutual `rateLE` forces equal sort keys. -/
theorem rateLE_keys {a b : Rate} (h1 : rateLE a b = true)
    (h2 : rateLE b a = true) :
    a.valid_from = b.valid_from ∧ a.id = b.id := by
  unfold rateLE at h1 h2
  rw [decide_eq_true_eq] at h1 h2
  omega

theorem scanRates_cons (tiers : List RateTier) (vg : Nat) (days : Int)
    (r : Rate) (rs : List Rate) :
    scanRates tiers vg days (r :: rs) =
      match findTier tiers r.id vg days with
      | some t => some (r, t)
      | none => scanRates tiers vg days rs := by
  unfold scanRates
  rw [List.findSome?_cons]
  cases findTier tiers r.id vg days <;> simp

/-- Walking a list sorted by `rateOrder`, the first element owning a
matching tier dominates, under `rateLE`, every member owning one. -/
theorem scanRates_dominates {tiers : List RateTier} {vg : Nat} {days : Int} :
    ∀ {rs : List Rate}, rs.Pairwise rateOrder →
    ∀ {r2 : Rate}, r2 ∈ rs → (findTier tiers r2.id vg days).isSome = true →
    ∃ r t, scanRates tiers vg days rs = some (r, t) ∧ r ∈ rs ∧
      findTier tiers r.id vg days = some t ∧ rateLE r r2 = true := by
  intro rs
  induction rs with
  | nil =>
    intro _ r2 hmem _
    cases hmem
  | cons a rs ih =>
    intro hpair r2 hmem ht2
    rw [List.pairwise_cons] at hpair
    cases hf : findTier tiers a.id vg days with
    | some t =>
      refine ⟨a, t, ?_, List.mem_cons_self a rs, hf, ?_⟩
      · rw [scanRates_cons, hf]
      · rcases List.mem_cons.mp hmem with h | h
        · rw [h]
          exact rateLE_refl a
        · exact hpair.1 r2 h
    | none =>
      have hr2 : r2 ∈ rs := by
        rcases List.mem_cons.mp hmem with h | h
        · rw [h] at ht2
          rw [hf] at ht2
          simp at ht2
        · exact h
      obtain ⟨r, t, hscan, hrmem, hft, hle⟩ := ih hpair.2 hr2 ht2
      refine ⟨r, t, ?_, List.mem_cons_of_mem a hrmem, hft, hle⟩
      rw [scanRates_cons, hf]
      exact hscan

/-- Two sorted permutations of each other agree when the sort key is
injective on their members (`id` is a primary key). -/
theorem sorted_perm_eq_of_key_inj :
    ∀ {l1 l2 : List Rate}, l1.Perm l2 →
    l1.Pairwise rateOrder → l2.Pairwise rateOrder →
    (∀ a ∈ l1, ∀ b ∈ l1, a.id = b.id → a = b) →
    l1 = l2 := by
  intro l1
  induction l1 with
  | nil =>
    intro l2 hp _ _ _
    exact hp.nil_eq
  | cons a t1 ih =>
    intro l2 hp hs1 hs2 hinj
    cases l2 with
    | nil => exact absurd hp.symm.nil_eq (by simp)
    | cons b t2 =>
      have hab : a = b := by
        by_contra hne
        have haIn : a ∈ b :: t2 := hp.mem_iff.mp (List.mem_cons_self a t1)
        have hbIn : b ∈ a :: t1 := hp.mem_iff.mpr (List.mem_cons_self b t2)
        have ha2 : a ∈ t2 := by
          rcases List.mem_cons.mp haIn with h | h
          · exact absurd h hne
          · exact h
        have hb1 : b ∈ t1 := by
          rcases List.mem_cons.mp hbIn with h | h
          · exact absurd h.symm hne
          · exact h
        have h1 : rateOrder a b := (List.pairwise_cons.mp hs1).1 b hb1
        have h2 : rateOrder b a := (List.pairwise_cons.mp hs2).1 a ha2
        have hk := rateLE_keys h1 h2
        exact hne (hinj a (List.mem_cons_self a t1) b
          (List.mem_cons_of_mem a hb1) hk.2)
      subst hab
      have ht : t1 = t2 := by
        refine ih hp.cons_inv (List.pairwise_cons.mp hs1).2
          (List.pairwise_cons.mp hs2).2 ?_
        intro x hx y hy hxy
        exact hinj x (List.mem_cons_of_mem a hx) y
          (List.mem_cons_of_mem a hy) hxy
      rw [ht]

theorem applicableRates_sorted (rates : List Rate) (pd days : Int) :
    (applicableRates rates pd days).Pairwise rateOrder := by
  unfold applicableRates
  exact List.sorted_insertionSort rateOrder _

theorem applicableRates_perm (rates : List Rate) (pd days : Int) :
    (applicableRates rates pd days).Perm
      (rates.filter (ratePred pd days)) := by
  unfold applicableRates
  exact List.perm_insertionSort rateOrder _

/-- Claim C1: the resolver selects exactly the first candidate rate — in
`valid_from` descending, `id` descending order — owning a tier matching the
vehicle group and rental_days:
(i) whenever some candidate `r2` has a matching tier, a winner exists, is
itself a candidate with a matching tier, and its key dominates that of `r2`
(later `valid_from`, or equal `valid_from` and greater id when distinct);
(ii) the outcome is independent of the enumeration order of the rate table
(ids being unique, as a primary key). -/
theorem rate_resolver_precedence
    (rates rates2 : List Rate) (tiers : List RateTier) (vg : Nat)
    (pd days : Int)
    (hinj : ∀ a ∈ rates, ∀ b ∈ rates, a.id = b.id → a = b) :
    (∀ r2 ∈ rates, ratePred pd days r2 = true →
      ∀ t2, findTier tiers r2.id vg days = some t2 →
      ∃ r t, selectRateAndTier rates tiers vg pd days = some (r, t) ∧
        r ∈ rates ∧ ratePred pd days r = true ∧
        findTier tiers r.id vg days = some t ∧
        (r2.valid_from < r.valid_from ∨
          (r2.valid_from = r.valid_from ∧ r2.id ≤ r.id)) ∧
        (r ≠ r2 → r2.valid_from < r.valid_from ∨
          (r2.valid_from = r.valid_from ∧ r2.id < r.id))) ∧
    (rates.Perm rates2 →
      selectRateAndTier rates tiers vg pd days
        = selectRateAndTier rates2 tiers vg pd days) := by
  constructor
  · intro r2 hmem hpred t2 ht2
    have hmem' : r2 ∈ applicableRates rates pd days :=
      (applicableRates_perm rates pd days).mem_iff.mpr
        (List.mem_filter.mpr ⟨hmem, hpred⟩)
    obtain ⟨r, t, hscan, hrmem, hft, hle⟩ :=
      scanRates_dominates (applicableRates_sorted rates pd days) hmem'
        (by rw [ht2]; rfl)
    have hrmem' : r ∈ rates.filter (ratePred pd days) :=
      (applicableRates_perm rates pd days).mem_iff.mp hrmem
    have hrIn : r ∈ rates := (List.mem_filter.mp hrmem').1
    have hrPred : ratePred pd days r = true := (List.mem_filter.mp hrmem').2
    have hkey : r2.valid_from < r.valid_from ∨
        (r.valid_from = r2.valid_from ∧ r2.id ≤ r.id) := by
      unfold rateLE at hle
      rw [decide_eq_true_eq] at hle
      exact hle
    refine ⟨r, t, hscan, hrIn, hrPred, hft, by omega, ?_⟩
    intro hne
    have hid : r.id ≠ r2.id := fun h => hne (hinj r hrIn r2 hmem h)
    omega
  · intro hperm
    unfold selectRateAndTier
    congr 1
    refine sorted_perm_eq_of_key_inj ?_
      (applicableRates_sorted rates pd days)
      (applicableRates_sorted rates2 pd days) ?_
    · exact (applicableRates_perm rates pd days).trans
        ((hperm.filter _).trans (applicableRates_perm rates2 pd days).symm)
    · intro a ha b hb hab
      have ha' := (List.mem_filter.mp
        ((applicableRates_perm rates pd days).mem_iff.mp ha)).1
      have hb' := (List.mem_filter.mp
        ((applicableRates_perm rates pd days).mem_iff.mp hb)).1
      exact hinj a ha' b hb' hab

/-- Witness for C1: between two matching candidates the one with the later
`valid_from` wins. -/
theorem rate_resolver_precedence_witness :
    ∃ r t, selectRateAndTier
        [⟨1, "older", 0, 100000, 1, none, true⟩,
         ⟨2, "newer", 10, 100000, 1, none, true⟩]
        [⟨11, 1, 3, 0, none, 30, "EUR"⟩, ⟨12, 2, 3, 0, none, 35, "EUR"⟩]
        3 20 5 = some (r, t) ∧
      r ∈ [⟨1, "older", 0, 100000, 1, none, true⟩,
           ⟨2, "newer", 10, 100000, 1, none, true⟩] ∧
      ratePred 20 5 r = true ∧
      findTier [⟨11, 1, 3, 0, none, 30, "EUR"⟩, ⟨12, 2, 3, 0, none, 35, "EUR"⟩]
        r.id 3 5 = some t ∧
      ((0 : Int) < r.valid_from ∨ ((0 : Int) = r.valid_from ∧ 1 ≤ r.id)) ∧
      (r ≠ ⟨1, "older", 0, 100000, 1, none, true⟩ →
        (0 : Int) < r.valid_from ∨ ((0 : Int) = r.valid_from ∧ 1 < r.id)) :=
  (rate_resolver_precedence
      [⟨1, "older", 0, 100000, 1, none, true⟩,
       ⟨2, "newer", 10, 100000, 1, none, true⟩]
      []
      [⟨11, 1, 3, 0, none, 30, "EUR"⟩, ⟨12, 2, 3, 0, none, 35, "EUR"⟩]
      3 20 5 (by decide)).1
    ⟨1, "older", 0, 100000, 1, none, true⟩ (by decide) (by decide)
    ⟨11, 1, 3, 0, none, 30, "EUR"⟩ (by decide)

end CarRental
